import Mathlib

/-!
Shallow embedding of the uptime monitoring engine in
`backend/uptime_service.py`: the endpoint prober (`check_endpoint`), the
per-cycle check recorder and status reconciler (`check_all_services`), the
periodic metrics aggregator (`calculate_metrics` / `calculate_period_metrics`)
and the scheduler loop (`start_monitoring`).  Machine reals of the source
(Python floats) are modelled exactly with rationals; exceptions are modelled
with `Except` / explicit failure outcomes.
-/

namespace UptimeService

/-- Service status enumeration of the data model: `operational`, `degraded`,
`partial_outage`, `major_outage`, `maintenance`. -/
inductive Status
  | operational
  | degraded
  | partial_outage
  | major_outage
  | maintenance
deriving DecidableEq

/-- Field `check_interval = 60` seconds between checks (constructor of
`UptimeService`). -/
def check_interval : Nat := 60

/-- Outcome of one outbound HTTP GET (`session.get(url, timeout=10)`): either
a response carrying an HTTP status code together with the elapsed wall-clock
time in whole milliseconds, or a failure with no response at all (timeout,
DNS error, connection refused, non-HTTP error — anything the `except` catches
before a response exists). -/
inductive ProbeOutcome
  | response (statusCode : Nat) (elapsedMs : Nat)
  | failure
deriving DecidableEq

/-- Embedding of `check_endpoint` (lines 74–85): on a response it returns
`(response.status < 400, response_time)`; the `except Exception` arm returns
`(False, None)`.  The function is total: no outcome raises to the caller. -/
def check_endpoint : ProbeOutcome → Bool × Option Nat
  | .response code ms => (decide (code < 400), some ms)
  | .failure => (false, none)

/-- Embedding of the status-update logic of `check_all_services`
(lines 52–69): a down probe on an `operational` service moves it to
`partial_outage`; an up probe on a non-`operational` service moves it to
`operational` only when the count of active (non-resolved) incidents touching
the service is zero; every other combination leaves the status unchanged. -/
def reconcileStatus (probeUp : Bool) (st : Status) (activeIncidents : Nat) :
    Status :=
  if probeUp = false ∧ st = Status.operational then Status.partial_outage
  else if probeUp = true ∧ st ≠ Status.operational ∧ activeIncidents = 0 then
    Status.operational
  else st

/-- C1: Reconciler state machine.  If the probe is down and the current status
is `operational` the status becomes `partial_outage`; if the probe is up, the
current status is not `operational`, and the active-incident count is zero the
status becomes `operational`; in every other combination (including a down
probe while already `partial_outage` or `major_outage`, and an up probe while
any incident is active) the status is unchanged. -/
theorem C1_reconciler_state_machine :
    (∀ n : Nat, reconcileStatus false Status.operational n =
      Status.partial_outage) ∧
    (∀ st : Status, st ≠ Status.operational →
      reconcileStatus true st 0 = Status.operational) ∧
    (∀ (up : Bool) (st : Status) (n : Nat),
      ¬(up = false ∧ st = Status.operational) →
      ¬(up = true ∧ st ≠ Status.operational ∧ n = 0) →
      reconcileStatus up st n = st) := by
  refine ⟨fun n => by simp [reconcileStatus], fun st h => by simp [reconcileStatus, h], ?_⟩
  intro up st n h1 h2
  simp only [reconcileStatus]
  rw [if_neg h1, if_neg h2]

/-- Witness for C1 at concrete inputs: an up probe on a `partial_outage`
service with zero active incidents yields `operational`, and an up probe with
one active incident leaves `partial_outage` unchanged. -/
theorem C1_reconciler_state_machine_witness :
    reconcileStatus true Status.partial_outage 0 = Status.operational ∧
    reconcileStatus true Status.partial_outage 1 = Status.partial_outage := by
  constructor
  · exact C1_reconciler_state_machine.2.1 Status.partial_outage (by decide)
  · exact C1_reconciler_state_machine.2.2 true Status.partial_outage 1
      (by decide) (by decide)

/-- Counterexample to C2 as stated: a service currently in `maintenance`,
probed up with zero active incidents, is auto-moved to `operational` by the
reconciler — a change of a `maintenance` status that is neither of the two
allowed moves `partial_outage → operational` and
`operational → partial_outage`. -/
theorem C2_maintenance_moved_counterexample :
    reconcileStatus true Status.maintenance 0 = Status.operational ∧
    Status.maintenance ≠ Status.operational ∧
    Status.maintenance ≠ Status.partial_outage := by decide

/-- C2 (amended): for every service whose current status is `degraded`,
`major_outage`, or `maintenance`, the reconciler never changes that status on
a down probe, and never changes it to anything other than `operational`; the
only change it ever makes to such a status is the move to `operational`, and
that happens exactly on an up probe with zero active incidents. -/
theorem C2_human_set_statuses_amended :
    ∀ (up : Bool) (n : Nat) (st : Status),
      (st = Status.degraded ∨ st = Status.major_outage ∨
        st = Status.maintenance) →
      (up = false → reconcileStatus up st n = st) ∧
      (reconcileStatus up st n = st ∨ reconcileStatus up st n =
        Status.operational) ∧
      (reconcileStatus up st n ≠ st ↔ (up = true ∧ n = 0)) := by
  intro up n st hst
  rcases hst with h | h | h <;> subst h <;> cases up <;>
    rcases Nat.eq_zero_or_pos n with hn | hn <;>
      simp_all [reconcileStatus] <;> omega

/-- Witness for C2 (amended) at concrete input: a `degraded` service, down
probe, one active incident — the status is unchanged. -/
theorem C2_human_set_statuses_amended_witness :
    reconcileStatus false Status.degraded 1 = Status.degraded :=
  (C2_human_set_statuses_amended false 1 Status.degraded (Or.inl rfl)).1 rfl

/-- C5: the endpoint prober never raises to its caller (`check_endpoint` is a
total function of the probe outcome): it returns `isUp = true` exactly when a
response is received with HTTP status code < 400, with the response time in
whole milliseconds populated whenever any response was received (up or
down-by-status-code); on any failure with no response it returns
`(false, none)`. -/
theorem C5_prober_contract :
    (∀ code ms : Nat,
      check_endpoint (ProbeOutcome.response code ms) =
        (decide (code < 400), some ms)) ∧
    check_endpoint ProbeOutcome.failure = (false, none) ∧
    (∀ o : ProbeOutcome, (check_endpoint o).1 = true ↔
      ∃ code ms : Nat, o = ProbeOutcome.response code ms ∧ code < 400) := by
  refine ⟨fun code ms => rfl, rfl, ?_⟩
  intro o
  cases o with
  | response code ms => simp [check_endpoint]
  | failure => simp [check_endpoint]

/-- Service row as the monitoring cycle reads it: identity, optional
health-check endpoint and current status.  The source's DB query filters
`endpoint != None`; the loop body additionally skips a falsy (empty-string)
endpoint via `if not service.endpoint: continue`. -/
structure Service where
  id : Nat
  endpoint : Option String
  status : Status
deriving DecidableEq

/-- UptimeCheck row created by one cycle: service reference, up/down status
and the probe's response time (`None` when the probe itself failed). -/
structure CheckRow where
  service_id : Nat
  up : Bool
  responseTime : Option Nat
deriving DecidableEq

/-- Environment of one monitoring cycle: the network (outcome of probing each
URL) and the store's count of active (non-resolved) incidents touching each
service id. -/
structure CycleEnv where
  probe : String → ProbeOutcome
  activeIncidents : Nat → Nat

/-- The UptimeCheck row `check_all_services` records for one service: none
when the endpoint is absent (excluded by the DB query) or falsy (skipped by
`if not service.endpoint: continue`); otherwise exactly the probed result. -/
def serviceNewCheck (env : CycleEnv) (s : Service) : Option CheckRow :=
  match s.endpoint with
  | none => none
  | some url =>
    if url = "" then none
    else
      let r := check_endpoint (env.probe url)
      some ⟨s.id, r.1, r.2⟩

/-- The status `check_all_services` leaves a service with after one cycle:
unchanged when the service has no truthy endpoint, otherwise the reconciled
status from the probe result and the active-incident count. -/
def serviceNewStatus (env : CycleEnv) (s : Service) : Status :=
  match s.endpoint with
  | none => s.status
  | some url =>
    if url = "" then s.status
    else reconcileStatus (check_endpoint (env.probe url)).1 s.status
      (env.activeIncidents s.id)

/-- Embedding of `check_all_services` (lines 28–72) with no injected faults:
the new UptimeCheck rows recorded in this cycle and the updated service
rows. -/
def check_all_services (env : CycleEnv) (svcs : List Service) :
    List CheckRow × List Service :=
  (svcs.filterMap (serviceNewCheck env),
    svcs.map (fun s => { s with status := serviceNewStatus env s }))

/-- Embedding of `check_all_services` with injected per-service faults: the
`try/except` around each service's body (lines 38–72) catches an exception
raised while probing, recording or reconciling that service, logs it, and
moves on — the faulted service contributes no check and keeps its status,
every other service is processed as usual. -/
def check_all_services_faulty (env : CycleEnv) (faults : Nat → Bool)
    (svcs : List Service) : List CheckRow × List Service :=
  (svcs.filterMap (fun s => if faults s.id then none else serviceNewCheck env s),
    svcs.map (fun s => if faults s.id then s
      else { s with status := serviceNewStatus env s }))

/-- One iteration of the `while True` body of `start_monitoring`
(lines 19–26): the cycle's work may fail with an exception; the
`except Exception` arm logs it and leaves the state as it was, and the loop
goes on to the next cycle after the normal sleep. -/
def loopStep {σ : Type} (cycle : σ → Except String σ) (st : σ) : σ :=
  match cycle st with
  | .ok st2 => st2
  | .error _ => st

/-- Embedding of `start_monitoring` run for a finite prefix of cycles: each
cycle's exception is recovered by `loopStep`, so every listed cycle is
executed. -/
def start_monitoring {σ : Type} (cycles : List (σ → Except String σ))
    (st : σ) : σ :=
  cycles.foldl (fun s c => loopStep c s) st

lemma serviceNewCheck_id (env : CycleEnv) (s : Service) (c : CheckRow)
    (h : serviceNewCheck env s = some c) : c.service_id = s.id := by
  unfold serviceNewCheck at h
  cases hs : s.endpoint with
  | none => simp [hs] at h
  | some url =>
    rw [hs] at h
    by_cases hu : url = ""
    · simp [hu] at h
    · simp only [if_neg hu, Option.some.injEq] at h
      rw [← h]

lemma filter_filterMap_nomatch (f : Service → Option CheckRow)
    (hf : ∀ u c, f u = some c → c.service_id = u.id) (i : Nat)
    (svcs : List Service) (h : ∀ u ∈ svcs, u.id ≠ i) :
    (svcs.filterMap f).filter (fun c => c.service_id = i) = [] := by
  induction svcs with
  | nil => rfl
  | cons t rest ih =>
    rw [List.filterMap_cons]
    cases ht : f t with
    | none => exact ih fun u hu => h u (List.mem_cons_of_mem t hu)
    | some c =>
      rw [List.filter_cons]
      have hc : c.service_id = t.id := hf t c ht
      have : ¬(c.service_id = i) := by
        rw [hc]; exact h t (List.mem_cons_self t rest)
      simp only [this, decide_eq_false_iff_not.mpr this, Bool.false_eq_true,
        if_false]
      exact ih fun u hu => h u (List.mem_cons_of_mem t hu)

lemma filter_filterMap_self (f : Service → Option CheckRow)
    (hf : ∀ u c, f u = some c → c.service_id = u.id) :
    ∀ (svcs : List Service) (s : Service), s ∈ svcs →
      (svcs.map Service.id).Nodup →
      (svcs.filterMap f).filter (fun c => c.service_id = s.id) =
        (f s).toList := by
  intro svcs
  induction svcs with
  | nil => intro s hs; exact absurd hs (List.not_mem_nil s)
  | cons t rest ih =>
    intro s hs hnodup
    rw [List.map_cons, List.nodup_cons] at hnodup
    rcases List.mem_cons.mp hs with rfl | hmem
    · rw [List.filterMap_cons]
      have hrest : (rest.filterMap f).filter
          (fun c => c.service_id = s.id) = [] := by
        refine filter_filterMap_nomatch f hf s.id rest fun u hu hui => ?_
        exact hnodup.1 (hui ▸ List.mem_map_of_mem Service.id hu)
      cases ht : f s with
      | none => simpa using hrest
      | some c =>
        have hc : c.service_id = s.id := hf s c ht
        rw [List.filter_cons]
        simp [hc, hrest]
    · have htid : t.id ≠ s.id := fun he =>
        hnodup.1 (he ▸ List.mem_map_of_mem Service.id hmem)
      rw [List.filterMap_cons]
      cases ht : f t with
      | none => exact ih s hmem hnodup.2
      | some c =>
        have hc : c.service_id = t.id := hf t c ht
        rw [List.filter_cons]
        have : ¬(c.service_id = s.id) := by rw [hc]; exact htid
        simp only [this, decide_eq_false_iff_not.mpr this, Bool.false_eq_true,
          if_false]
        exact ih s hmem hnodup.2

/-- C6: in one monitoring cycle, every service with a configured endpoint (a
present, non-empty URL — the source skips an absent endpoint in the DB query
and a falsy one in the loop) gets exactly one new UptimeCheck row recorded; a
failed probe still produces a down check with null responseTime, not a
missing row; and a service without such an endpoint never gets an
UptimeCheck. -/
theorem C6_one_check_per_service (env : CycleEnv) (svcs : List Service)
    (s : Service) (hs : s ∈ svcs) (hnodup : (svcs.map Service.id).Nodup) :
    (((check_all_services env svcs).1.filter
        (fun c => c.service_id = s.id)).length =
      if s.endpoint = none ∨ s.endpoint = some "" then 0 else 1) ∧
    (∀ url : String, s.endpoint = some url → url ≠ "" →
      env.probe url = ProbeOutcome.failure →
      (check_all_services env svcs).1.filter (fun c => c.service_id = s.id) =
        [⟨s.id, false, none⟩]) := by
  have key : (check_all_services env svcs).1.filter
      (fun c => c.service_id = s.id) = (serviceNewCheck env s).toList :=
    filter_filterMap_self (serviceNewCheck env) (serviceNewCheck_id env)
      svcs s hs hnodup
  constructor
  · rw [key]
    unfold serviceNewCheck
    cases he : s.endpoint with
    | none => simp
    | some url =>
      by_cases hu : url = "" <;> simp [hu]
  · intro url hurl hu hprobe
    rw [key]
    unfold serviceNewCheck
    rw [hurl]
    simp [hu, hprobe, check_endpoint]

/-- Witness for C6 at concrete input: two services with endpoints, the first
probe fails, the second succeeds — the first service still gets exactly one
down check with null responseTime. -/
theorem C6_one_check_per_service_witness :
    (((check_all_services
        ⟨fun u => if u = "a" then ProbeOutcome.failure
          else ProbeOutcome.response 200 5, fun _ => 0⟩
        [⟨1, some "a", Status.operational⟩,
          ⟨2, some "b", Status.operational⟩]).1.filter
        (fun c => c.service_id = 1)).length = 1) ∧
    ((check_all_services
        ⟨fun u => if u = "a" then ProbeOutcome.failure
          else ProbeOutcome.response 200 5, fun _ => 0⟩
        [⟨1, some "a", Status.operational⟩,
          ⟨2, some "b", Status.operational⟩]).1.filter
        (fun c => c.service_id = 1) = [⟨1, false, none⟩]) := by
  have h := C6_one_check_per_service
    ⟨fun u => if u = "a" then ProbeOutcome.failure
      else ProbeOutcome.response 200 5, fun _ => 0⟩
    [⟨1, some "a", Status.operational⟩, ⟨2, some "b", Status.operational⟩]
    ⟨1, some "a", Status.operational⟩ (by simp) (by decide)
  exact ⟨by rw [h.1]; decide, h.2 "a" rfl (by decide) (by decide)⟩

/-- C7: failures are isolated.  A fault while probing, recording or
reconciling one service does not change what the cycle does for any other
(non-faulted) service; and at the loop level an exception escaping a cycle is
recovered, so the loop continues with the remaining cycles and executes every
cycle of any finite schedule. -/
theorem C7_failure_isolation :
    (∀ (env : CycleEnv) (faults : Nat → Bool) (svcs : List Service)
        (s : Service), s ∈ svcs → (svcs.map Service.id).Nodup →
      faults s.id = false →
      (check_all_services_faulty env faults svcs).1.filter
          (fun c => c.service_id = s.id) =
        (check_all_services env svcs).1.filter
          (fun c => c.service_id = s.id)) ∧
    (∀ (σ : Type) (c : σ → Except String σ)
        (cs : List (σ → Except String σ)) (st : σ),
      start_monitoring (c :: cs) st = start_monitoring cs (loopStep c st) ∧
      (∀ e : String, c st = Except.error e →
        start_monitoring (c :: cs) st = start_monitoring cs st)) := by
  constructor
  · intro env faults svcs s hs hnodup hfault
    have hf : ∀ u c, (if faults u.id then none else serviceNewCheck env u) =
        some c → c.service_id = u.id := by
      intro u c h
      by_cases hu : faults u.id
      · simp [hu] at h
      · rw [if_neg hu] at h
        exact serviceNewCheck_id env u c h
    have h1 := filter_filterMap_self _ hf svcs s hs hnodup
    have h2 := filter_filterMap_self (serviceNewCheck env)
      (serviceNewCheck_id env) svcs s hs hnodup
    unfold check_all_services_faulty check_all_services
    rw [h1, h2, hfault]
    simp
  · intro σ c cs st
    constructor
    · rfl
    · intro e he
      simp [start_monitoring, loopStep, he]

/-- Witness for C7 at concrete input: with service 1 faulted, service 2's
check rows are the same as in the fault-free cycle; and a cycle that always
fails leaves the loop state unchanged while the next cycle still runs. -/
theorem C7_failure_isolation_witness :
    ((check_all_services_faulty
        ⟨fun _ => ProbeOutcome.response 200 5, fun _ => 0⟩ (fun i => i == 1)
        [⟨1, some "a", Status.operational⟩,
          ⟨2, some "b", Status.operational⟩]).1.filter
        (fun c => c.service_id = 2) =
      (check_all_services
        ⟨fun _ => ProbeOutcome.response 200 5, fun _ => 0⟩
        [⟨1, some "a", Status.operational⟩,
          ⟨2, some "b", Status.operational⟩]).1.filter
        (fun c => c.service_id = 2)) ∧
    start_monitoring [fun _ : Nat => Except.error "boom",
      fun n : Nat => Except.ok (n + 1)] 0 = 1 := by
  constructor
  · exact C7_failure_isolation.1
      ⟨fun _ => ProbeOutcome.response 200 5, fun _ => 0⟩ (fun i => i == 1)
      [⟨1, some "a", Status.operational⟩, ⟨2, some "b", Status.operational⟩]
      ⟨2, some "b", Status.operational⟩ (by simp) (by decide) (by decide)
  · have h := (C7_failure_isolation.2 Nat (fun _ : Nat => Except.error "boom")
      [fun n : Nat => Except.ok (n + 1)] 0).2 "boom" rfl
    rw [h]
    rfl

/-- UptimeCheck row as the aggregator reads it back from the store: service
reference, up/down, nullable response time, and a timestamp (modelled as
minutes since an arbitrary epoch). -/
structure UptimeCheck where
  service_id : Nat
  up : Bool
  responseTime : Option Nat
  timestamp : Int
deriving DecidableEq

/-- Line 131: `total_checks = len(checks)`. -/
def total_checks (checks : List UptimeCheck) : Nat := checks.length

/-- Line 132: `up_checks = sum(1 for check in checks if check.status == "up")`. -/
def up_checks (checks : List UptimeCheck) : Nat :=
  (checks.filter (fun c => c.up)).length

/-- Line 133: `uptime_percentage = (up_checks / total_checks) * 100 if
total_checks > 0 else 0`, with Python float arithmetic modelled exactly by
rationals. -/
def uptime_percentage (checks : List UptimeCheck) : ℚ :=
  if 0 < total_checks checks then
    ((up_checks checks : ℚ) / (total_checks checks : ℚ)) * 100
  else 0

/-- Line 136: the response times of the checks whose response time is
non-null. -/
def response_times (checks : List UptimeCheck) : List Nat :=
  checks.filterMap (fun c => c.responseTime)

/-- Line 137: `avg_response_time = sum(response_times) // len(response_times)
if response_times else None` — Python floor division on naturals is `Nat`
division. -/
def avg_response_time (checks : List UptimeCheck) : Option Nat :=
  if response_times checks = [] then none
  else some ((response_times checks).sum / (response_times checks).length)

/-- Line 141: `minutes_per_check = (days * 24 * 60) / total_checks if
total_checks > 0 else 0` (true division, modelled by rationals). -/
def minutes_per_check (days : Nat) (checks : List UptimeCheck) : ℚ :=
  if 0 < total_checks checks then
    ((days * 24 * 60 : Nat) : ℚ) / (total_checks checks : ℚ)
  else 0

/-- Line 142: `downtime_minutes = int((total_checks - up_checks) *
minutes_per_check)` — both factors are non-negative, so Python's
truncation `int(...)` is the floor. -/
def downtime_minutes (days : Nat) (checks : List UptimeCheck) : ℤ :=
  ⌊((total_checks checks - up_checks checks : Nat) : ℚ) *
    minutes_per_check days checks⌋

/-- The fixed example of the spec's scenario: 10 checks in a day, 8 up with
response times [100,120,110,90,130,95,105,115], 2 down with null response
times. -/
def exampleChecks : List UptimeCheck :=
  [⟨1, true, some 100, 0⟩, ⟨1, true, some 120, 1⟩, ⟨1, true, some 110, 2⟩,
    ⟨1, true, some 90, 3⟩, ⟨1, true, some 130, 4⟩, ⟨1, false, none, 5⟩,
    ⟨1, false, none, 6⟩, ⟨1, true, some 95, 7⟩, ⟨1, true, some 105, 8⟩,
    ⟨1, true, some 115, 9⟩]

lemma up_checks_le_total (checks : List UptimeCheck) :
    up_checks checks ≤ total_checks checks :=
  List.length_filter_le _ checks

/-- C3: for every non-empty list of checks in a window of `days` days with
`N` total checks and `U` up checks, the aggregator computes
`uptime_percentage = 100*U/N`, `checksCount = N`, `avg_response_time` the
floor-division integer average over the non-null response times (null if none
is non-null), and `downtime_minutes = ⌊(N−U) * (days*24*60) / N⌋`; in
particular on the spec's 10-check daily example the metric is
uptime 80, checksCount 10, avgResponseTime 108, downtimeMinutes 288. -/
theorem C3_aggregation_formulas (checks : List UptimeCheck) (days : Nat)
    (hne : checks ≠ []) :
    (uptime_percentage checks =
      100 * (up_checks checks : ℚ) / (total_checks checks : ℚ)) ∧
    (total_checks checks = checks.length) ∧
    (avg_response_time checks = if response_times checks = [] then none
      else some ((response_times checks).sum /
        (response_times checks).length)) ∧
    (downtime_minutes days checks =
      ⌊((total_checks checks - up_checks checks : Nat) : ℚ) *
        ((days * 24 * 60 : Nat) : ℚ) / (total_checks checks : ℚ)⌋) ∧
    (uptime_percentage exampleChecks = 80 ∧
      total_checks exampleChecks = 10 ∧
      avg_response_time exampleChecks = some 108 ∧
      downtime_minutes 1 exampleChecks = 288) := by
  have hpos : 0 < total_checks checks :=
    List.length_pos.mpr hne
  refine ⟨?_, rfl, rfl, ?_, ?_, rfl, rfl, ?_⟩
  · rw [uptime_percentage, if_pos hpos]
    ring
  · rw [downtime_minutes, minutes_per_check, if_pos hpos, mul_div_assoc]
  · show uptime_percentage exampleChecks = 80
    norm_num [uptime_percentage, total_checks, up_checks, exampleChecks,
      List.filter]
  · show downtime_minutes 1 exampleChecks = 288
    norm_num [downtime_minutes, minutes_per_check, total_checks, up_checks,
      exampleChecks, List.filter]

/-- Witness for C3: the theorem applied at the spec's 10-check daily
example. -/
theorem C3_aggregation_formulas_witness :
    uptime_percentage exampleChecks = 80 ∧
    total_checks exampleChecks = 10 ∧
    avg_response_time exampleChecks = some 108 ∧
    downtime_minutes 1 exampleChecks = 288 :=
  (C3_aggregation_formulas exampleChecks 1 (by decide)).2.2.2.2

/-- C10: every metric the aggregator computes from a non-empty check list
satisfies `checksCount ≥ 1`, `0 ≤ uptime_percentage ≤ 100`, and
`0 ≤ downtime_minutes ≤ days*24*60` — the estimated downtime never exceeds
the length of the window. -/
theorem C10_metric_invariants (days : Nat) (checks : List UptimeCheck)
    (hne : checks ≠ []) :
    1 ≤ total_checks checks ∧
    0 ≤ uptime_percentage checks ∧ uptime_percentage checks ≤ 100 ∧
    0 ≤ downtime_minutes days checks ∧
    downtime_minutes days checks ≤ (days * 24 * 60 : Nat) := by
  have hpos : 0 < total_checks checks := List.length_pos.mpr hne
  have hNq : (0 : ℚ) < (total_checks checks : ℚ) := by exact_mod_cast hpos
  have hle : (up_checks checks : ℚ) ≤ (total_checks checks : ℚ) := by
    exact_mod_cast up_checks_le_total checks
  refine ⟨hpos, ?_, ?_, ?_, ?_⟩
  · rw [uptime_percentage, if_pos hpos]
    positivity
  · rw [uptime_percentage, if_pos hpos]
    have h1 : (up_checks checks : ℚ) / (total_checks checks : ℚ) ≤ 1 :=
      (div_le_one hNq).mpr hle
    nlinarith
  · rw [downtime_minutes]
    apply Int.floor_nonneg.mpr
    apply mul_nonneg (by positivity)
    rw [minutes_per_check, if_pos hpos]
    positivity
  · rw [downtime_minutes, minutes_per_check, if_pos hpos]
    have hsub : ((total_checks checks - up_checks checks : Nat) : ℚ) ≤
        (total_checks checks : ℚ) := by
      exact_mod_cast Nat.sub_le _ _
    have hmain : ((total_checks checks - up_checks checks : Nat) : ℚ) *
        (((days * 24 * 60 : Nat) : ℚ) / (total_checks checks : ℚ)) ≤
        ((days * 24 * 60 : Nat) : ℚ) := by
      rw [mul_div_assoc']
      rw [div_le_iff₀ hNq]
      have : ((days * 24 * 60 : Nat) : ℚ) ≥ 0 := by positivity
      nlinarith
    calc ⌊((total_checks checks - up_checks checks : Nat) : ℚ) *
        (((days * 24 * 60 : Nat) : ℚ) / (total_checks checks : ℚ))⌋
        ≤ ⌊((days * 24 * 60 : Nat) : ℚ)⌋ := Int.floor_le_floor hmain
      _ = ((days * 24 * 60 : Nat) : ℤ) := Int.floor_natCast _

/-- Witness for C10: the theorem applied at the spec's 10-check daily
example. -/
theorem C10_metric_invariants_witness :
    1 ≤ total_checks exampleChecks ∧
    0 ≤ uptime_percentage exampleChecks ∧
    uptime_percentage exampleChecks ≤ 100 ∧
    0 ≤ downtime_minutes 1 exampleChecks ∧
    downtime_minutes 1 exampleChecks ≤ (1 * 24 * 60 : Nat) :=
  C10_metric_invariants 1 exampleChecks (by decide)

/-- UptimeMetric row: key fields (service, period kind, window start and
end) and computed fields (uptime percentage, nullable average response time,
checks count, downtime minutes). -/
structure UptimeMetric where
  service_id : Nat
  period : String
  startDate : Int
  endDate : Int
  uptime : ℚ
  avgResponseTime : Option Nat
  checksCount : Nat
  downtimeMinutes : ℤ
deriving DecidableEq

/-- The `find_first` filter of lines 145–152: a stored row matches when its
(service, period, startDate, endDate) key equals the one being upserted. -/
def sameKey (m r : UptimeMetric) : Bool :=
  r.service_id == m.service_id && r.period == m.period &&
    r.startDate == m.startDate && r.endDate == m.endDate

/-- The `update` of lines 155–163: overwrite the computed fields of an
existing row with the newly calculated values, leaving its key fields as they
were. -/
def applyUpdate (m r : UptimeMetric) : UptimeMetric :=
  { r with
    uptime := m.uptime
    avgResponseTime := m.avgResponseTime
    checksCount := m.checksCount
    downtimeMinutes := m.downtimeMinutes }

/-- Update-by-id on the row `find_first` returned: with unique row ids this
is exactly "replace the first row satisfying `p`". -/
def updateFirst (p : UptimeMetric → Bool) (f : UptimeMetric → UptimeMetric) :
    List UptimeMetric → List UptimeMetric
  | [] => []
  | r :: rs => if p r then f r :: rs else r :: updateFirst p f rs

/-- Embedding of the create-or-update of lines 144–176: look up an existing
metric row by key; if found, update its computed fields in place, otherwise
append a new row. -/
def upsertMetric (rows : List UptimeMetric) (m : UptimeMetric) :
    List UptimeMetric :=
  match rows.find? (sameKey m) with
  | some _ => updateFirst (sameKey m) (applyUpdate m) rows
  | none => rows ++ [m]

/-- The query of lines 117–125: all stored checks of one service with
timestamp in `[startDate, endDate)`. -/
def checksInWindow (store : List UptimeCheck) (sid : Nat)
    (startDate endDate : Int) : List UptimeCheck :=
  store.filter (fun c => c.service_id == sid &&
    decide (startDate ≤ c.timestamp) && decide (c.timestamp < endDate))

/-- The metric row lines 154–176 write for one service and window. -/
def mkMetric (sid : Nat) (period : String) (startDate endDate : Int)
    (days : Nat) (checks : List UptimeCheck) : UptimeMetric :=
  ⟨sid, period, startDate, endDate, uptime_percentage checks,
    avg_response_time checks, total_checks checks,
    downtime_minutes days checks⟩

/-- Embedding of the body of `calculate_period_metrics` for one service
(lines 115–176): fetch the window's checks; if there are none, skip the
service (lines 127–128); otherwise compute the metric and upsert it. -/
def calculate_period_metrics_service (store : List UptimeCheck)
    (rows : List UptimeMetric) (sid : Nat) (period : String)
    (startDate endDate : Int) (days : Nat) : List UptimeMetric :=
  let checks := checksInWindow store sid startDate endDate
  if checks = [] then rows
  else upsertMetric rows (mkMetric sid period startDate endDate days checks)

/-- Number of stored metric rows sharing `m`'s period key. -/
def countKey (rows : List UptimeMetric) (m : UptimeMetric) : Nat :=
  (rows.filter (sameKey m)).length

lemma sameKey_applyUpdate (m r : UptimeMetric) :
    sameKey m (applyUpdate m r) = sameKey m r := by
  simp [sameKey, applyUpdate]

lemma applyUpdate_applyUpdate (m r : UptimeMetric) :
    applyUpdate m (applyUpdate m r) = applyUpdate m r := by
  simp [applyUpdate]

lemma applyUpdate_self (m : UptimeMetric) : applyUpdate m m = m := by
  cases m
  rfl

lemma sameKey_self (m : UptimeMetric) : sameKey m m = true := by
  simp [sameKey]

lemma countKey_updateFirst (m : UptimeMetric) (rows : List UptimeMetric) :
    countKey (updateFirst (sameKey m) (applyUpdate m) rows) m =
      countKey rows m := by
  induction rows with
  | nil => rfl
  | cons r rs ih =>
    rw [updateFirst]
    by_cases hr : sameKey m r
    · simp [countKey, List.filter_cons, hr, sameKey_applyUpdate]
    · simp only [hr, Bool.false_eq_true, if_false]
      simp only [countKey, List.filter_cons, hr, Bool.false_eq_true,
        if_false] at ih ⊢
      exact ih

lemma updateFirst_idem (m : UptimeMetric) (rows : List UptimeMetric) :
    updateFirst (sameKey m) (applyUpdate m)
      (updateFirst (sameKey m) (applyUpdate m) rows) =
      updateFirst (sameKey m) (applyUpdate m) rows := by
  induction rows with
  | nil => rfl
  | cons r rs ih =>
    rw [updateFirst]
    by_cases hr : sameKey m r
    · simp only [hr, if_true, updateFirst, sameKey_applyUpdate, hr,
        applyUpdate_applyUpdate]
    · simp only [hr, Bool.false_eq_true, if_false, updateFirst, ih]

lemma find?_updateFirst (m : UptimeMetric) (rows : List UptimeMetric) :
    (updateFirst (sameKey m) (applyUpdate m) rows).find? (sameKey m) =
      (rows.find? (sameKey m)).map (applyUpdate m) := by
  induction rows with
  | nil => rfl
  | cons r rs ih =>
    rw [updateFirst]
    by_cases hr : sameKey m r
    · rw [if_pos hr, List.find?_cons_of_pos _ (by rw [sameKey_applyUpdate]; exact hr),
        List.find?_cons_of_pos _ hr, Option.map_some']
    · rw [if_neg (by simpa using hr),
        List.find?_cons_of_neg _ (by simpa using hr),
        List.find?_cons_of_neg _ (by simpa using hr), ih]

lemma updateFirst_append_nomatch (m : UptimeMetric)
    (rows tail : List UptimeMetric)
    (h : rows.find? (sameKey m) = none) :
    updateFirst (sameKey m) (applyUpdate m) (rows ++ tail) =
      rows ++ updateFirst (sameKey m) (applyUpdate m) tail := by
  induction rows with
  | nil => rfl
  | cons r rs ih =>
    rw [List.find?_cons] at h
    rcases hr : sameKey m r with hf | ht
    · rw [hr] at h
      simp only [List.cons_append, updateFirst, hr, Bool.false_eq_true,
        if_false, List.cons.injEq, true_and]
      exact ih h
    · rw [hr] at h
      exact absurd h (by simp)

lemma upsert_countKey (rows : List UptimeMetric) (m : UptimeMetric)
    (h : countKey rows m ≤ 1) : countKey (upsertMetric rows m) m = 1 := by
  rw [upsertMetric]
  cases hfind : rows.find? (sameKey m) with
  | none =>
    have hnone : ∀ r ∈ rows, ¬(sameKey m r = true) := by
      intro r hr
      exact List.find?_eq_none.mp hfind r hr
    have : rows.filter (sameKey m) = [] :=
      List.filter_eq_nil_iff.mpr hnone
    rw [countKey, List.filter_append, this, List.nil_append,
      List.filter_cons, sameKey_self m]
    rfl
  | some r0 =>
    rw [countKey_updateFirst]
    have hmem : r0 ∈ rows.filter (sameKey m) :=
      List.mem_filter.mpr ⟨List.mem_of_find?_eq_some hfind,
        List.find?_some hfind⟩
    have h1 : 1 ≤ countKey rows m := by
      rw [countKey]
      exact List.length_pos.mpr (List.ne_nil_of_mem hmem)
    omega

lemma upsert_idem (rows : List UptimeMetric) (m : UptimeMetric) :
    upsertMetric (upsertMetric rows m) m = upsertMetric rows m := by
  rw [upsertMetric]
  cases hfind : rows.find? (sameKey m) with
  | none =>
    have h2 : (rows ++ [m]).find? (sameKey m) = some m := by
      rw [List.find?_append, hfind, Option.none_or,
        List.find?_cons_of_pos _ (sameKey_self m)]
    rw [upsertMetric] at *
    rw [hfind]
    rw [h2, updateFirst_append_nomatch m rows [m] hfind, updateFirst,
      if_pos (sameKey_self m), applyUpdate_self]
  | some r0 =>
    rw [upsertMetric] at *
    rw [hfind]
    have h2 : (updateFirst (sameKey m) (applyUpdate m) rows).find?
        (sameKey m) = some (applyUpdate m r0) := by
      rw [find?_updateFirst, hfind, Option.map_some']
    rw [h2, updateFirst_idem]

lemma cpms_of_nonempty (store : List UptimeCheck) (rows : List UptimeMetric)
    (sid : Nat) (period : String) (startDate endDate : Int) (days : Nat)
    (hne : checksInWindow store sid startDate endDate ≠ []) :
    calculate_period_metrics_service store rows sid period startDate endDate
        days =
      upsertMetric rows (mkMetric sid period startDate endDate days
        (checksInWindow store sid startDate endDate)) := by
  rw [calculate_period_metrics_service]
  simp only [if_neg hne]

/-- C4: aggregation upsert is idempotent.  When the store holds at most one
metric row for the (service, period, start, end) key and the window has
checks, one aggregator run leaves exactly one row for that key, a second run
with unchanged check data leaves the store byte-for-byte identical (hence
identical field values), and at no point do two rows exist for the key. -/
theorem C4_upsert_idempotent (store : List UptimeCheck)
    (rows : List UptimeMetric) (sid : Nat) (period : String)
    (startDate endDate : Int) (days : Nat)
    (hne : checksInWindow store sid startDate endDate ≠ [])
    (hkey : countKey rows (mkMetric sid period startDate endDate days
      (checksInWindow store sid startDate endDate)) ≤ 1) :
    countKey
        (calculate_period_metrics_service store rows sid period startDate
          endDate days)
        (mkMetric sid period startDate endDate days
          (checksInWindow store sid startDate endDate)) = 1 ∧
    calculate_period_metrics_service store
        (calculate_period_metrics_service store rows sid period startDate
          endDate days) sid period startDate endDate days =
      calculate_period_metrics_service store rows sid period startDate
        endDate days := by
  rw [cpms_of_nonempty store rows sid period startDate endDate days hne,
    cpms_of_nonempty store _ sid period startDate endDate days hne]
  exact ⟨upsert_countKey rows _ hkey, upsert_idem rows _⟩

/-- Witness for C4: the theorem applied with the spec's 10-check example as
the store, an empty metric table, and the daily window [0, 10). -/
theorem C4_upsert_idempotent_witness :
    countKey
        (calculate_period_metrics_service exampleChecks [] 1 "daily" 0 10 1)
        (mkMetric 1 "daily" 0 10 1 (checksInWindow exampleChecks 1 0 10)) =
      1 ∧
    calculate_period_metrics_service exampleChecks
        (calculate_period_metrics_service exampleChecks [] 1 "daily" 0 10 1)
        1 "daily" 0 10 1 =
      calculate_period_metrics_service exampleChecks [] 1 "daily" 0 10 1 :=
  C4_upsert_idempotent exampleChecks [] 1 "daily" 0 10 1 (by decide)
    (by simp [countKey])

/-- C9: a service with zero checks in the period window is skipped — the
aggregator run neither creates nor updates any metric row for it and raises
no error (the embedding is a total function); and a null average response
time is a valid resulting field value: a window holding only probe-failure
checks still produces its metric row, with `avgResponseTime = none`. -/
theorem C9_zero_checks_skipped (store : List UptimeCheck)
    (rows : List UptimeMetric) (sid : Nat) (period : String)
    (startDate endDate : Int) (days : Nat)
    (hempty : checksInWindow store sid startDate endDate = []) :
    calculate_period_metrics_service store rows sid period startDate endDate
        days = rows ∧
    (avg_response_time [⟨1, false, none, 0⟩] = none ∧
      calculate_period_metrics_service [⟨1, false, none, 0⟩] [] 1 "daily" 0 1
          1 = [mkMetric 1 "daily" 0 1 1 [⟨1, false, none, 0⟩]]) := by
  refine ⟨?_, rfl, ?_⟩
  · rw [calculate_period_metrics_service]
    simp [hempty]
  · rfl

/-- Witness for C9: the theorem applied to a store whose only check lies
outside the window [0, 1). -/
theorem C9_zero_checks_skipped_witness :
    calculate_period_metrics_service [⟨1, true, some 5, 7⟩]
        [mkMetric 1 "daily" 0 1 1 [⟨1, false, none, 0⟩]] 1 "daily" 0 1 1 =
      [mkMetric 1 "daily" 0 1 1 [⟨1, false, none, 0⟩]] :=
  (C9_zero_checks_skipped [⟨1, true, some 5, 7⟩]
    [mkMetric 1 "daily" 0 1 1 [⟨1, false, none, 0⟩]] 1 "daily" 0 1 1
    (by decide)).1

/-- Gregorian leap-year rule, as Python's `datetime` calendar implements
it. -/
def isLeapYear (y : Nat) : Bool :=
  (y % 4 == 0 && !(y % 100 == 0)) || y % 400 == 0

/-- Length of calendar month `m` (1–12) of year `y`. -/
def daysInMonth (y m : Nat) : Nat :=
  if m = 2 then (if isLeapYear y then 29 else 28)
  else if m = 4 ∨ m = 6 ∨ m = 9 ∨ m = 11 then 30 else 31

/-- Length of year `y` in days. -/
def daysInYear (y : Nat) : Nat := if isLeapYear y then 366 else 365

/-- Calendar date, proleptic and zero-based at year 0. -/
structure Date where
  year : Nat
  month : Nat
  day : Nat
deriving DecidableEq

/-- Wall-clock instant as `calculate_metrics` reads it: the calendar date
plus hour, minute and Python weekday (0 = Monday … 6 = Sunday). -/
structure DateTime where
  year : Nat
  month : Nat
  day : Nat
  hour : Nat
  minute : Nat
  weekday : Nat
deriving DecidableEq

/-- Python date arithmetic `d - timedelta(days=1)` on a valid date. -/
def subOneDay (d : Date) : Date :=
  if 1 < d.day then ⟨d.year, d.month, d.day - 1⟩
  else if 1 < d.month then ⟨d.year, d.month - 1, daysInMonth d.year (d.month - 1)⟩
  else ⟨d.year - 1, 12, 31⟩

/-- Lines 101–103: `last_month = now.replace(day=1) - timedelta(days=1);
days_in_month = last_month.day`. -/
def days_in_prev_month (now : DateTime) : Nat :=
  (subOneDay ⟨now.year, now.month, 1⟩).day

/-- Line 92 gate: `now.hour == 0 and now.minute < self.check_interval // 60`. -/
def dailyDue (now : DateTime) : Bool :=
  now.hour == 0 && decide (now.minute < check_interval / 60)

/-- Line 96 gate: `now.weekday() == 6 and now.hour == 0 and now.minute <
self.check_interval // 60`. -/
def weeklyDue (now : DateTime) : Bool :=
  now.weekday == 6 && now.hour == 0 &&
    decide (now.minute < check_interval / 60)

/-- Line 100 gate: `now.day == 1 and now.hour == 0 and now.minute <
self.check_interval // 60`. -/
def monthlyDue (now : DateTime) : Bool :=
  now.day == 1 && now.hour == 0 &&
    decide (now.minute < check_interval / 60)

/-- Days of complete months before month `m` in year `y`. -/
def daysBeforeMonth (y m : Nat) : Nat :=
  ((List.range (m - 1)).map (fun i => daysInMonth y (i + 1))).sum

/-- Days of complete years before year `y`. -/
def daysBeforeYear (y : Nat) : Nat :=
  ((List.range y).map daysInYear).sum

/-- Absolute day index of a date. -/
def dayNumber (d : Date) : Nat :=
  daysBeforeYear d.year + daysBeforeMonth d.year d.month + (d.day - 1)

/-- Line 108: `now.replace(hour=0, minute=0, second=0, microsecond=0)` as an
absolute timestamp in minutes. -/
def midnightMinutes (now : DateTime) : Nat :=
  dayNumber ⟨now.year, now.month, now.day⟩ * (24 * 60)

/-- Lines 108–109: the aggregation window `[end_date - timedelta(days),
end_date)` with `end_date` the current midnight, in absolute minutes. -/
def periodWindow (now : DateTime) (days : Nat) : Int × Int :=
  ((midnightMinutes now : Int) - days * (24 * 60), (midnightMinutes now : Int))

lemma daysBeforeMonth_succ (y k : Nat) :
    daysBeforeMonth y (k + 2) = daysBeforeMonth y (k + 1) + daysInMonth y (k + 1) := by
  simp [daysBeforeMonth, List.range_succ]

lemma daysBeforeMonth_year (y : Nat) :
    daysBeforeMonth y 13 = daysInYear y := by
  have h12 : List.range 12 = [0, 1, 2, 3, 4, 5, 6, 7, 8, 9, 10, 11] := rfl
  by_cases hl : isLeapYear y <;>
    simp [daysBeforeMonth, h12, daysInMonth, daysInYear, hl]

lemma daysBeforeYear_succ (y : Nat) :
    daysBeforeYear (y + 1) = daysBeforeYear y + daysInYear y := by
  simp [daysBeforeYear, List.range_succ]

lemma dayNumber_month_step (y m : Nat) (h : 2 ≤ m) :
    dayNumber ⟨y, m, 1⟩ = dayNumber ⟨y, m - 1, 1⟩ + daysInMonth y (m - 1) := by
  obtain ⟨k, rfl⟩ : ∃ k, m = k + 2 := ⟨m - 2, by omega⟩
  have hstep := daysBeforeMonth_succ y k
  have he : k + 2 - 1 = k + 1 := by omega
  simp only [dayNumber, he]
  omega

lemma dayNumber_year_step (y : Nat) (h : 1 ≤ y) :
    dayNumber ⟨y, 1, 1⟩ = dayNumber ⟨y - 1, 12, 1⟩ + daysInMonth (y - 1) 12 := by
  obtain ⟨z, rfl⟩ : ∃ z, y = z + 1 := ⟨y - 1, by omega⟩
  have h13 : daysBeforeMonth z 13 = daysBeforeMonth z 12 + daysInMonth z 12 :=
    daysBeforeMonth_succ z 11
  have hy := daysBeforeMonth_year z
  have hny := daysBeforeYear_succ z
  have h0 : daysBeforeMonth (z + 1) 1 = 0 := rfl
  simp only [dayNumber, Nat.add_sub_cancel, h0]
  omega

lemma daysInMonth_12 (y : Nat) : daysInMonth y 12 = 31 := by
  norm_num [daysInMonth]

/-- C8: boundary gating and window selection.  A rollup fires only in the
first `check_interval / 60` minutes of hour 0 — daily every day, weekly
additionally only when the Python weekday is 6 (the week-end day, Sunday),
monthly additionally only on the first day of a calendar month.  The
aggregation window is `[midnight − windowDays days, midnight)` with
`windowDays` = 1 (daily), 7 (weekly) or the number of days of the previous
calendar month (monthly), so the monthly window is exactly the previous
calendar month. -/
theorem C8_boundary_gating_and_windows :
    (∀ now : DateTime,
      (dailyDue now = true ↔
        (now.hour = 0 ∧ now.minute < check_interval / 60)) ∧
      (weeklyDue now = true ↔ (dailyDue now = true ∧ now.weekday = 6)) ∧
      (monthlyDue now = true ↔ (dailyDue now = true ∧ now.day = 1))) ∧
    (∀ (now : DateTime) (days : Nat),
      periodWindow now days =
        ((midnightMinutes now : Int) - days * (24 * 60),
          (midnightMinutes now : Int))) ∧
    (∀ now : DateTime, monthlyDue now = true → 1 ≤ now.year →
      1 ≤ now.month → now.month ≤ 12 →
      days_in_prev_month now =
        (if now.month = 1 then daysInMonth (now.year - 1) 12
          else daysInMonth now.year (now.month - 1)) ∧
      periodWindow now (days_in_prev_month now) =
        ((dayNumber (if now.month = 1 then ⟨now.year - 1, 12, 1⟩
            else ⟨now.year, now.month - 1, 1⟩) * (24 * 60) : Int),
          (dayNumber ⟨now.year, now.month, 1⟩ * (24 * 60) : Int))) := by
  refine ⟨?_, fun now days => rfl, ?_⟩
  · intro now
    refine ⟨?_, ?_, ?_⟩
    · simp [dailyDue]
    · simp [weeklyDue, dailyDue]
      tauto
    · simp [monthlyDue, dailyDue]
      tauto
  · intro now hdue hy hm1 hm12
    have hday : now.day = 1 := by
      simp [monthlyDue] at hdue
      tauto
    have hprev : days_in_prev_month now =
        (if now.month = 1 then daysInMonth (now.year - 1) 12
          else daysInMonth now.year (now.month - 1)) := by
      rw [days_in_prev_month, subOneDay]
      by_cases hm : now.month = 1
      · simp [hm, daysInMonth_12]
      · have h2 : 1 < now.month := by omega
        simp [h2, hm]
    refine ⟨hprev, ?_⟩
    have hstep : dayNumber ⟨now.year, now.month, 1⟩ =
        dayNumber (if now.month = 1 then ⟨now.year - 1, 12, 1⟩
          else ⟨now.year, now.month - 1, 1⟩) + days_in_prev_month now := by
      by_cases hm : now.month = 1
      · rw [hprev]
        simp only [hm, if_true]
        exact dayNumber_year_step now.year hy
      · rw [hprev]
        simp only [hm, if_false]
        exact dayNumber_month_step now.year now.month (by omega)
    rw [periodWindow, midnightMinutes, hday, Prod.mk.injEq]
    constructor
    · rw [hstep]
      push_cast
      ring
    · rw [hstep]
      push_cast
      ring

/-- Witness for C8: the theorem applied at the concrete instant
year 1, March 1, 00:00 — the monthly gate fires, the previous month
(February of year 1, not leap) has 28 days, and the window is exactly that
February. -/
theorem C8_boundary_gating_and_windows_witness :
    days_in_prev_month ⟨1, 3, 1, 0, 0, 3⟩ =
      (if (3 : Nat) = 1 then daysInMonth 0 12 else daysInMonth 1 2) ∧
    periodWindow ⟨1, 3, 1, 0, 0, 3⟩ (days_in_prev_month ⟨1, 3, 1, 0, 0, 3⟩) =
      ((dayNumber (if (3 : Nat) = 1 then ⟨0, 12, 1⟩ else ⟨1, 2, 1⟩) *
          (24 * 60) : Int),
        (dayNumber ⟨1, 3, 1⟩ * (24 * 60) : Int)) :=
  C8_boundary_gating_and_windows.2.2 ⟨1, 3, 1, 0, 0, 3⟩ (by decide)
    (by decide) (by decide) (by decide)

end UptimeService
